import Mathlib

/-!
# Verification of the Ray tutorial notebooks

Shallow embedding of the three tutorial notebooks of this repository
(remote functions, joblib backend, remote classes) together with the
consumed contract of the external task-execution framework, as the
specification describes it.  The framework itself is not part of the
repository; its two operations, submit and resolve, are modelled from
the specification text, while every function, class and cell sequence
below is translated from the notebook sources.
-/

set_option autoImplicit false

/-- Errors that the external framework can signal to the caller. -/
inductive RayError where
  | remoteFailure (code : Nat)
  | unknownHandle
  | reinitError
deriving DecidableEq, Repr

/-- A handle (object ref / future): an opaque reference returned by an
asynchronous invocation, identified by the index of the submission that
created it. -/
structure ObjectRef where
  id : Nat
deriving DecidableEq, Repr

/-- Modelled from the spec: the session state of the external framework
as the example code observes it.  `active` tracks the cluster
connection, `results` and `finish` record for each submitted task its
eventual result and completion time, `resolveLog` records the handle of
every resolution performed, and `now` is the caller clock (it advances
only where the calling thread blocks). -/
structure RayState where
  active : Bool
  now : Nat
  results : List (Except RayError Nat)
  finish : List Nat
  resolveLog : List Nat
deriving Repr

/-- Modelled from the spec: `submit(callable, args) → handle` enqueues
work for out-of-process execution and returns immediately.  The fresh
handle indexes the recorded eventual result of the task; the task
completes `duration` time units later, in the background. -/
def submit (result : Except RayError Nat) (duration : Nat) (s : RayState) :
    ObjectRef × RayState :=
  (⟨s.results.length⟩,
   { s with
       results := s.results ++ [result]
       finish := s.finish ++ [s.now + duration] })

/-- Modelled from the spec: `resolve(handle) → value` blocks the calling
thread until the referenced computation completes, then returns the
produced value or propagates the remote failure unchanged.  Blocking is
modelled by advancing the caller clock to the completion time of the
referenced task; every resolution is logged. -/
def rayGet (h : ObjectRef) (s : RayState) : Except RayError Nat × RayState :=
  (s.results.getD h.id (Except.error RayError.unknownHandle),
   { s with
       now := max s.now (s.finish.getD h.id s.now)
       resolveLog := s.resolveLog ++ [h.id] })

/-- Modelled from the spec: session bootstrap.  Initializing while a
session is already active raises an error unless the caller passes
`ignore_reinit_error=True`, in which case the existing session is kept
usable. -/
def rayInit (ignoreReinitError : Bool) (s : RayState) :
    Except RayError RayState :=
  if s.active && !ignoreReinitError then Except.error RayError.reinitError
  else Except.ok { s with active := true }

/-- The session state right after the bootstrap cell of a notebook:
connection active, no submissions yet, caller clock at zero. -/
def s0 : RayState :=
  { active := true, now := 0, results := [], finish := [], resolveLog := [] }

/-- From the source (ex_remo_func.ipynb): `def my_function(): return 42`. -/
def my_function (_ : Unit) : Nat := 42

/-- Models the Python library contract of `random.randint(a, b)`: an
integer `N` with `a ≤ N ≤ b`, drawn here from an abstract seed. -/
def randint (a b seed : Nat) : Nat := a + seed % (b + 1 - a)

/-- From the source (ex_remo_func.ipynb): `slow_function` sleeps two
seconds and returns `random.randint(0, 9)`.  The randomness is passed in
as an abstract seed. -/
def slow_function (seed : Nat) : Nat := randint 0 9 seed

/-- The duration of one `slow_function` task: `time.sleep(2)`. -/
def slow_duration : Nat := 2

/-- Calling the undecorated callable directly, in process. -/
def localCall (f : Unit → Nat) : Nat := f ()

/-- The remote pipeline of the notebook: submit the callable, then
resolve the returned handle; the value component of the resolution. -/
def remoteCall (f : Unit → Nat) (s : RayState) : Except RayError Nat :=
  let p := submit (Except.ok (f ())) 0 s
  (rayGet p.1 p.2).1

/-- From the source (ex_remo_func.ipynb): the cell
`futures_list = []; for i in range(4): future = slow_function.remote();
futures_list.append(future)`, generalized to `k` iterations starting at
loop index `i`.  Returns the appended handles and the resulting session
state. -/
def submitLoop (seeds : Nat → Nat) : Nat → Nat → RayState →
    List ObjectRef × RayState
  | _, 0, s => ([], s)
  | i, k + 1, s =>
    let p := submit (Except.ok (slow_function (seeds i))) slow_duration s
    let q := submitLoop seeds (i + 1) k p.2
    (p.1 :: q.1, q.2)

/-- The `futures_list` built by the four-iteration loop, starting from a
fresh session. -/
def futures_list (seeds : Nat → Nat) : List ObjectRef :=
  (submitLoop seeds 0 4 s0).1

/-- The session state after the four submissions of the loop. -/
def afterSubmits (seeds : Nat → Nat) : RayState :=
  (submitLoop seeds 0 4 s0).2

/-- From the source (ex_remo_func.ipynb): the cell
`for future in futures_list: ic(ray.get(future))`: resolve the handles
in order, collecting the values. -/
def getLoop : List ObjectRef → RayState → List (Except RayError Nat) × RayState
  | [], s => ([], s)
  | h :: hs, s =>
    let p := rayGet h s
    let q := getLoop hs p.2
    (p.1 :: q.1, q.2)

/-- From the source (ex_remo_meth.ipynb): the `Counter` class. -/
structure Counter where
  value : Nat
deriving DecidableEq, Repr

/-- From the source: `__init__` sets `self.value = 0`. -/
def Counter.new : Counter := { value := 0 }

/-- From the source: `increment` does `self.value += 1; return self.value`:
the updated actor state together with the returned value. -/
def Counter.increment (c : Counter) : Counter × Nat :=
  (⟨c.value + 1⟩, c.value + 1)

/-- Running `n` increment invocations on a fresh `Counter`: the final
actor state and the list of returned values in invocation order. -/
def incrementRun : Nat → Counter × List Nat
  | 0 => (Counter.new, [])
  | n + 1 =>
    let p := incrementRun n
    let q := Counter.increment p.1
    (q.1, p.2 ++ [q.2])

/-- The calls a notebook cell makes into the external framework or the
joblib integration layer.  The last four constructors are operations the
framework offers but that no cell of this repository uses. -/
inductive RayCall where
  | init (ignoreReinitError : Bool)
  | getDashboardUrl
  | submitTask
  | actorCreate
  | actorMethodSubmit
  | resolve
  | registerBackend
  | backendFit
  | shutdown
  | interceptFailure
  | cancelTask
  | waitWithTimeout
  | retryTask
deriving DecidableEq, Repr

/-- The framework-call sequence of the remote-functions notebook
(ex_remo_func.ipynb, first document): bootstrap, one submit/resolve
pair for `my_function`, the four-submission loop, the four-resolution
loop, teardown. -/
def remoFuncTrace : List RayCall :=
  [RayCall.init true, RayCall.getDashboardUrl,
   RayCall.submitTask, RayCall.resolve,
   RayCall.submitTask, RayCall.submitTask, RayCall.submitTask,
   RayCall.submitTask,
   RayCall.resolve, RayCall.resolve, RayCall.resolve, RayCall.resolve,
   RayCall.shutdown]

/-- The framework-call sequence of the joblib notebook
(ex_remo_func.ipynb, second document): bootstrap, backend registration,
the parallelized fit, teardown. -/
def joblibTrace : List RayCall :=
  [RayCall.init true, RayCall.getDashboardUrl,
   RayCall.registerBackend, RayCall.backendFit,
   RayCall.shutdown]

/-- The framework-call sequence of the remote-classes notebook
(ex_remo_meth.ipynb): bootstrap, actor creation, one method
submit/resolve pair, teardown. -/
def remoMethTrace : List RayCall :=
  [RayCall.init true, RayCall.getDashboardUrl,
   RayCall.actorCreate, RayCall.actorMethodSubmit, RayCall.resolve,
   RayCall.shutdown]

/-- All framework calls of the three notebooks, in notebook order. -/
def allTraces : List RayCall := remoFuncTrace ++ joblibTrace ++ remoMethTrace

/-- A call that submits work (creates a handle). -/
def isSubmission : RayCall → Bool
  | RayCall.submitTask => true
  | RayCall.actorCreate => true
  | RayCall.actorMethodSubmit => true
  | _ => false

/-- A call that resolves a handle. -/
def isResolution : RayCall → Bool
  | RayCall.resolve => true
  | _ => false

/-- A session-bootstrap call. -/
def isInit : RayCall → Bool
  | RayCall.init _ => true
  | _ => false

/-- A call that intercepts, cancels, times out or retries remote work. -/
def isFailureHandling : RayCall → Bool
  | RayCall.interceptFailure => true
  | RayCall.cancelTask => true
  | RayCall.waitWithTimeout => true
  | RayCall.retryTask => true
  | _ => false

/-- No submission or resolution occurs before a call satisfying `p`. -/
def noWorkBefore (p : RayCall → Bool) : List RayCall → Bool
  | [] => true
  | c :: rest =>
    if p c then true
    else !(isSubmission c || isResolution c) && noWorkBefore p rest

/-- The lifecycle discipline of a notebook trace: the session is
initialized, and the diagnostic dashboard endpoint reported, before any
submission or resolution; the single teardown call is the final step. -/
def lifecycleOk (t : List RayCall) : Bool :=
  noWorkBefore isInit t &&
  noWorkBefore (fun c => c == RayCall.getDashboardUrl) t &&
  (t.getLast? == some RayCall.shutdown) &&
  (t.count RayCall.shutdown == 1)

/-- A call the notebooks are permitted to make: a submission, a
resolution, a session-lifecycle call, or a joblib backend call. -/
def allowedCall (c : RayCall) : Bool :=
  isSubmission c || isResolution c || isInit c ||
  c == RayCall.getDashboardUrl || c == RayCall.shutdown ||
  c == RayCall.registerBackend || c == RayCall.backendFit

/-- The bootstrap call of a cell passes `ignore_reinit_error=True`
(vacuously true of non-bootstrap calls). -/
def passesIgnoreReinit : RayCall → Bool
  | RayCall.init b => b
  | _ => true

/-- Claim C1: invoking a remote-decorated callable via `.remote()`
returns immediately a fresh handle determined only by the session state,
never the computed value itself: the handle is the same whatever result
the task will produce, it is the index of the submission, and the value
is obtained only by a later explicit resolution of that handle. -/
theorem submit_returns_handle_not_value :
    (∀ (r r2 : Except RayError Nat) (d d2 : Nat) (s : RayState),
      (submit r d s).1 = (submit r2 d2 s).1) ∧
    (∀ (r : Except RayError Nat) (d : Nat) (s : RayState),
      (submit r d s).1 = ObjectRef.mk s.results.length) ∧
    (∀ (r : Except RayError Nat) (d : Nat) (s : RayState),
      (rayGet (submit r d s).1 (submit r d s).2).1 = r) := by
  refine ⟨fun r r2 d d2 s => rfl, fun r d s => rfl, fun r d s => ?_⟩
  simp [submit, rayGet]

/-- Claim C2: resolving a handle returns the value produced by the
submitted computation: submit followed by resolve is equivalent to
calling the callable directly, so resolving the handle of a remote
`my_function` invocation returns 42, the same result as the undecorated
local call. -/
theorem remote_call_refines_local_call :
    (∀ (f : Unit → Nat) (s : RayState),
      remoteCall f s = Except.ok (localCall f)) ∧
    remoteCall my_function s0 = Except.ok 42 ∧
    my_function () = 42 ∧
    localCall my_function = 42 := by
  refine ⟨fun f s => ?_, rfl, rfl, rfl⟩
  simp [remoteCall, localCall, submit, rayGet]

/-- Claim C3: each invocation creates exactly one handle, the loop of
four submissions to `slow_function` yields four pairwise distinct
handles in `futures_list`, and the subsequent loop resolves each of them
exactly once: the resolution log is exactly the list of the four handle
ids. -/
theorem futures_list_fresh_and_resolved_once :
    ∀ seeds : Nat → Nat,
      (futures_list seeds).length = 4 ∧
      ((futures_list seeds).map ObjectRef.id).Nodup ∧
      (∀ (r : Except RayError Nat) (d : Nat) (s : RayState),
        (submit r d s).2.results.length = s.results.length + 1) ∧
      (getLoop (futures_list seeds) (afterSubmits seeds)).2.resolveLog
        = (futures_list seeds).map ObjectRef.id := by
  intro seeds
  refine ⟨rfl, ?_, fun r d s => by simp [submit], rfl⟩
  have h : (futures_list seeds).map ObjectRef.id = [0, 1, 2, 3] := rfl
  rw [h]
  decide

/-- Claim C4: every notebook follows the lifecycle order bootstrap,
definition, invocation, resolution, teardown: the session is
initialized, and the dashboard endpoint reported, before any submission
or resolution, and the single teardown call is the final step. -/
theorem notebook_lifecycle_order :
    lifecycleOk remoFuncTrace = true ∧
    lifecycleOk joblibTrace = true ∧
    lifecycleOk remoMethTrace = true := by
  decide

/-- Claim C5: no error interception, cancellation, timeout or retry call
occurs in any notebook trace, and a remote failure propagates unchanged
from the framework to the caller at the resolution point, both for a
single resolution and through the resolution loop of the example. -/
theorem no_failure_handling_and_unchanged_propagation :
    (allTraces.all fun c => !(isFailureHandling c)) = true ∧
    (∀ (e : RayError) (d : Nat) (s : RayState),
      (rayGet (submit (Except.error e) d s).1
        (submit (Except.error e) d s).2).1 = Except.error e) ∧
    (∀ e : RayError,
      (getLoop [(submit (Except.error e) slow_duration s0).1]
        (submit (Except.error e) slow_duration s0).2).1
        = [Except.error e]) := by
  refine ⟨by decide, fun e d s => ?_, fun e => rfl⟩
  simp [submit, rayGet]

/-- Claim C6: submissions never block: a submission leaves the caller
clock unchanged, the four-submission loop completes at caller time zero,
and the caller blocks only inside the resolutions, which advance the
clock to the completion time (2) of the background tasks. -/
theorem blocking_only_at_resolution :
    (∀ (r : Except RayError Nat) (d : Nat) (s : RayState),
      (submit r d s).2.now = s.now) ∧
    (∀ seeds : Nat → Nat, (afterSubmits seeds).now = 0) ∧
    (∀ seeds : Nat → Nat,
      (getLoop (futures_list seeds) (afterSubmits seeds)).2.now = 2) := by
  exact ⟨fun r d s => rfl, fun seeds => rfl, fun seeds => rfl⟩

/-- Claim C7, counterexample: the bootstrap call `ray.init` is a call
the notebooks make into the external framework that is neither a
submission nor a resolution, so the notebooks do not exercise only the
two operations submit and resolve. -/
theorem init_call_outside_submit_resolve :
    RayCall.init true ∈ remoFuncTrace ∧
    isSubmission (RayCall.init true) = false ∧
    isResolution (RayCall.init true) = false := by
  decide

/-- Claim C7, amended: every call the notebooks make into the external
framework is a submission, a resolution, a session-lifecycle call
(bootstrap, dashboard report, teardown), or a joblib backend call
(backend registration, parallelized fit). -/
theorem notebook_calls_classified :
    (allTraces.all allowedCall) = true := by
  decide

/-- Claim C8: a fresh `Counter` has value 0, every `increment` call
increases the value by exactly one and returns the new value, the n-th
increment invocation on a fresh counter returns n, and the first
resolved increment of the notebook returns 1. -/
theorem counter_nth_increment_returns_n :
    Counter.new.value = 0 ∧
    (∀ c : Counter, (Counter.increment c).2 = c.value + 1 ∧
      (Counter.increment c).1.value = c.value + 1) ∧
    (∀ n : Nat, (incrementRun n).1.value = n ∧
      (incrementRun n).2 = (List.range n).map (fun k => k + 1)) ∧
    (incrementRun 1).2 = [1] ∧
    (rayGet (submit (Except.ok (Counter.increment Counter.new).2) 0 s0).1
      (submit (Except.ok (Counter.increment Counter.new).2) 0 s0).2).1
      = Except.ok 1 := by
  refine ⟨rfl, fun c => ⟨rfl, rfl⟩, fun n => ?_, rfl, rfl⟩
  induction n with
  | zero => exact ⟨rfl, rfl⟩
  | succ n ih =>
    obtain ⟨h1, h2⟩ := ih
    refine ⟨?_, ?_⟩
    · simp [incrementRun, Counter.increment, h1]
    · simp [incrementRun, Counter.increment, h1, h2, List.range_succ]

/-- Claim C9: every invocation of `slow_function` produces an integer
between 0 and 9 inclusive, so every value obtained by resolving a
handle of `futures_list` lies in that range. -/
theorem slow_function_values_in_range :
    (∀ seed : Nat, slow_function seed ≤ 9) ∧
    (∀ (seeds : Nat → Nat) (v : Nat),
      Except.ok v ∈ (getLoop (futures_list seeds) (afterSubmits seeds)).1 →
      v ≤ 9) := by
  have hb : ∀ seed : Nat, slow_function seed ≤ 9 := by
    intro seed
    simp only [slow_function, randint]
    omega
  refine ⟨hb, fun seeds v hv => ?_⟩
  have h : (getLoop (futures_list seeds) (afterSubmits seeds)).1 =
      [Except.ok (slow_function (seeds 0)), Except.ok (slow_function (seeds 1)),
       Except.ok (slow_function (seeds 2)),
       Except.ok (slow_function (seeds 3))] := rfl
  rw [h] at hv
  simp only [List.mem_cons, List.not_mem_nil, or_false, Except.ok.injEq] at hv
  rcases hv with h0 | h1 | h2 | h3 <;> subst_vars <;> exact hb _

/-- Witness for claim C9: the membership hypothesis holds at the
all-zero seed stream, where every resolved value is 0. -/
theorem slow_function_values_in_range_witness :
    Except.ok 0 ∈
      (getLoop (futures_list (fun _ => 0)) (afterSubmits (fun _ => 0))).1 ∧
    (0 : Nat) ≤ 9 := by
  have hm : Except.ok 0 ∈
      (getLoop (futures_list (fun _ => 0)) (afterSubmits (fun _ => 0))).1 := by
    simp [getLoop, futures_list, afterSubmits, submitLoop, submit, rayGet,
      slow_function, randint, s0]
  exact ⟨hm, slow_function_values_in_range.2 (fun _ => 0) 0 hm⟩

/-- Claim C10: every session bootstrap in the notebooks passes
`ignore_reinit_error=True`, and with that flag a bootstrap succeeds on
any session state, already-initialized or not, leaving the session
active and otherwise untouched. -/
theorem repeated_bootstrap_accepted :
    (allTraces.all passesIgnoreReinit) = true ∧
    (∀ s : RayState, rayInit true s = Except.ok { s with active := true }) := by
  refine ⟨by decide, fun s => ?_⟩
  simp [rayInit]
